import Mathlib

/-!
# spyglass: the OpenAperture workflow client

A shallow embedding of `openaperture/openaperture.go`, `openaperture/auth.go`
and the polling loop of `cli.go`.

Conventions of the embedding.

* Go strings and byte slices are Lean `String`s (text that is valid UTF-8; the
  separator `/` is one byte and one character); Go `int` is `Int`.
* A Go function returning `(*T, error)` returns `Except String T`: `(nil, err)`
  is `.error err.Error()` and `(v, nil)` is `.ok v`.  Where the Go code can
  return a nil pointer together with a nil error the payload is an `Option`.
* A method with a pointer receiver that assigns a field returns the updated
  receiver next to its results.
* A run-time panic (index out of range, nil dereference, `panic(...)`, closing
  a closed channel) is the constructor `Run.panicked`.
* The standard library and the outside world are parameters: `Lib` (URL
  parsing and the JSON codec), `OS` (environment, file system) and a
  `Transport`, the behaviour of `client.Do` on a request.
-/

namespace Spyglass

/-! ## Data model (`openaperture.go`, `auth.go`) -/

/-- The struct `Project`. -/
structure Project where
  Name : String
  Environment : String
  Commit : String
  Server : String
  WorkflowID : String
  ForceBuild : Bool
  BuildExchangeID : String
  DeployExchangeID : String
deriving DecidableEq, Repr

/-- The struct `Workflow`, the status snapshot decoded from the service. -/
structure Workflow where
  EventLog : List String
  WorkflowCompleted : Bool
  WorkflowError : Bool
  CreatedAt : String
  CurrentStep : String
  DeploymentRepo : String
  DeploymentRepoGitRef : String
  ElapsedStepTime : String
  ElapsedWorkflowTime : String
  ID : String
  Milestones : List String
  SourceCommitHash : String
  SourceRepo : String
  SourceRepoGitRef : String
  UpdatedAt : String
  WorkflowDuration : String
  WorkflowStepDurations : List (String × String)
deriving DecidableEq, Repr

/-- The struct `Request`, the body of the workflow creation call. -/
structure Request where
  DeploymentRepo : String
  DeploymentGitRef : String
  SourceRepo : String
  SourceRepoGitRef : String
  Milestones : List String
deriving DecidableEq, Repr

/-- The struct `ExecuteRequest`. -/
structure ExecuteRequest where
  BuildExchangeID : String
  DeployExchangeID : String
  ForceBuild : Bool
deriving DecidableEq, Repr

/-- The struct `ApertureResponse`, the uniform response envelope. -/
structure ApertureResponse where
  Status : String
  StatusCode : Int
  Location : String
  Body : String
deriving DecidableEq, Repr

/-- The struct `Auth`, the credential returned by the token endpoint. -/
structure Auth where
  AccessToken : String
  TokenType : String
  ExpiresIn : String
  Scope : String
deriving DecidableEq, Repr

/-! ## The outside world -/

/-- The request handed to `client.Do`. -/
structure HttpRequest where
  Method : String
  URL : String
  Header : List (String × String)
  Body : String
deriving DecidableEq, Repr

/-- What `client.Do` hands back: the status line, the status code, the header
`Location` (`none` when `resp.Header["Location"]` is nil, otherwise its first
value: the standard transport of `http.Client` never stores a key with an
empty slice of values) and the bytes `ioutil.ReadAll` got from the body. -/
structure HttpResponse where
  Status : String
  StatusCode : Int
  Location : Option String
  Body : String
deriving DecidableEq, Repr

/-- The behaviour of `client.Do`: a transport error or a response. -/
abbrev Transport := HttpRequest → Except String HttpResponse

/-- The standard-library functions the client calls and that are not modelled
bit for bit: whether `http.NewRequest` accepts a URL, `json.Marshal` on the
three request shapes, and `json.Unmarshal` into the three targets.  Each
decoder returns the target as `json.Unmarshal` leaves it, starting from the
value the caller declared (a nil `*Workflow`, a zero `Auth`, a nil map), and
the error it returns, if any. -/
structure Lib where
  urlParses : String → Bool
  marshalRequest : Request → String
  marshalExecuteRequest : ExecuteRequest → String
  marshalCredentials : List (String × String) → String
  unmarshalWorkflow : String → Option Workflow × Option String
  unmarshalAuth : String → Auth × Option String
  unmarshalConfig : String → List (String × String) × Option String

/-- Result of a Go computation that may panic. -/
inductive Run (α : Type) where
  | ret (a : α)
  | panicked (msg : String)
deriving DecidableEq, Repr

/-- A computation together with the requests it handed to `client.Do`, oldest
first. -/
structure Traced (α : Type) where
  sent : List HttpRequest
  out : Run α
deriving DecidableEq, Repr

/-! ## `strings.Split` and slice indexing -/

/-- The pieces of `s` between the occurrences of the one-character separator
`sep`; there is always one piece more than there are separators. -/
def splitChars (sep : Char) : List Char → List (List Char)
  | [] => [[]]
  | c :: cs =>
    if c = sep then [] :: splitChars sep cs
    else
      match splitChars sep cs with
      | [] => [[c]]
      | w :: ws => (c :: w) :: ws

/-- The call `strings.Split(s, sep)` for a separator of one character, the only
way the client calls it (`sep = "/"`). -/
def Split (s : String) (sep : Char) : List String :=
  (splitChars sep s.data).map String.mk

/-- Go's `fmt.Sprint` of an `int`, as it appears in the index panic message. -/
def showNat (n : Nat) : String := toString n

/-- The slice access `xs[i]`: the element, or the run-time panic. -/
def index (xs : List String) (i : Nat) : Run String :=
  match xs.get? i with
  | some x => .ret x
  | none =>
    .panicked ("runtime error: index out of range [" ++ showNat i ++ "] with length "
      ++ showNat xs.length)

/-! ## The orchestration client (`openaperture.go`) -/

/-- The message of Go's nil-pointer panic. -/
def nilDeref : String := "runtime error: invalid memory address or nil pointer dereference"

/-- The method `GetAuthorizationHeader`. -/
def Auth.GetAuthorizationHeader (oauth : Auth) : String :=
  "Bearer access_token=" ++ oauth.AccessToken

/-- The constructor `NewProject`; `WorkflowID` is left at its zero value. -/
def NewProject (projectName environment commit server buildExchangeID deployExchangeID : String)
    (forceBuild : Bool) : Project :=
  { Name := projectName, Environment := environment, Commit := commit, Server := server,
    WorkflowID := "", ForceBuild := forceBuild,
    BuildExchangeID := buildExchangeID, DeployExchangeID := deployExchangeID }

/-- The method `NewRequest`; `SourceRepo` is left at its zero value. -/
def Project.NewRequest (project : Project) (operations : List String) : Request :=
  { DeploymentRepo := project.Name, DeploymentGitRef := project.Environment,
    SourceRepo := "", SourceRepoGitRef := project.Commit, Milestones := operations }

/-- The method `NewExecuteRequest`. -/
def Project.NewExecuteRequest (project : Project) (forceBuild : Bool) : ExecuteRequest :=
  { BuildExchangeID := project.BuildExchangeID, DeployExchangeID := project.DeployExchangeID,
    ForceBuild := forceBuild }

/-- The request `httpRequest` builds: `http.NewRequest` and the two
`Header.Set` calls. -/
def buildRequest (method : String) (auth : Auth) (uri payload : String) : HttpRequest :=
  { Method := method, URL := uri,
    Header := [("Authorization", auth.GetAuthorizationHeader),
               ("Content-Type", "application/json")],
    Body := payload }

/-- The function `httpRequest`.  The error of `http.NewRequest` is dropped, so
a URL it rejects leaves `req` nil and the next line dereferences it.  `auth` is
the non-nil pointer the callers got from `GetAuth`. -/
def httpRequest (lib : Lib) (Do : Transport) (method : String) (auth : Auth) (uri payload : String) :
    Traced (Except String ApertureResponse) :=
  if lib.urlParses uri then
    let req := buildRequest method auth uri payload
    match Do req with
    | .error err => ⟨[req], .ret (.error err)⟩
    | .ok resp =>
      let location :=
        match resp.Location with
        | some value => value
        | none => ""
      ⟨[req], .ret (.ok { Status := resp.Status, StatusCode := resp.StatusCode,
                          Location := location, Body := resp.Body })⟩
  else ⟨[], .panicked nilDeref⟩

/-- The method `CreateWorkflow`: the updated project and the returned pair. -/
def Project.CreateWorkflow (lib : Lib) (Do : Transport) (project : Project) (auth : Auth)
    (operations : List String) : Traced (Project × Except String ApertureResponse) :=
  let uri := project.Server ++ "/workflows"
  let payload := lib.marshalRequest (project.NewRequest operations)
  let call := httpRequest lib Do "POST" auth uri payload
  match call.out with
  | .panicked msg => ⟨call.sent, .panicked msg⟩
  | .ret (.error err) => ⟨call.sent, .ret (project, .error err)⟩
  | .ret (.ok resp) =>
    if resp.StatusCode ≠ 201 then
      ⟨call.sent, .ret (project, .error ("Failed to create workflow: " ++ resp.Status))⟩
    else
      match index (Split resp.Location '/') 2 with
      | .panicked msg => ⟨call.sent, .panicked msg⟩
      | .ret id => ⟨call.sent, .ret ({ project with WorkflowID := id }, .ok resp)⟩

/-- The method `ExecuteWorkflow`: `none` is the nil error. -/
def Project.ExecuteWorkflow (lib : Lib) (Do : Transport) (project : Project) (auth : Auth)
    (workflowURI : String) : Traced (Option String) :=
  let uri := project.Server ++ workflowURI ++ "/execute"
  let payload := lib.marshalExecuteRequest (project.NewExecuteRequest project.ForceBuild)
  let call := httpRequest lib Do "POST" auth uri payload
  match call.out with
  | .panicked msg => ⟨call.sent, .panicked msg⟩
  | .ret (.error err) => ⟨call.sent, .ret (some err)⟩
  | .ret (.ok resp) =>
    if resp.StatusCode = 204 ∨ resp.StatusCode = 202 then ⟨call.sent, .ret none⟩
    else ⟨call.sent, .ret (some ("Failed to execute workflow: " ++ resp.Status))⟩

/-- The method `Status`.  `workflow` starts as a nil pointer, the error of
`json.Unmarshal` is dropped, and the pointer is returned as the decoder left
it. -/
def Project.Status (lib : Lib) (Do : Transport) (project : Project) (auth : Auth) :
    Traced (Except String (Option Workflow)) :=
  let path := project.Server ++ "/workflows/" ++ project.WorkflowID
  let call := httpRequest lib Do "GET" auth path ""
  match call.out with
  | .panicked msg => ⟨call.sent, .panicked msg⟩
  | .ret (.error err) => ⟨call.sent, .ret (.error err)⟩
  | .ret (.ok resp) =>
    if resp.StatusCode ≠ 200 then
      ⟨call.sent, .ret (.error ("Failed to retrieve status: " ++ resp.Status))⟩
    else ⟨call.sent, .ret (.ok (lib.unmarshalWorkflow resp.Body).1)⟩

/-! ## The credential resolver (`auth.go`) -/

/-- The error of `os.Stat`, as far as `os.IsNotExist` tells them apart. -/
inductive StatError where
  | notExist
  | other (msg : String)
deriving DecidableEq, Repr

/-- The process environment and the file system: the environment variables
(`none` for a variable that is not set), `os.Stat` (its error, `none` when the
file is there), `ioutil.ReadFile` and `path.Join`. -/
structure OS where
  env : String → Option String
  Stat : String → Option StatError
  ReadFile : String → Except String String
  pathJoin : String → String → String

/-- The function `os.Getenv`: the value of the variable, empty when it is not
set. -/
def OS.Getenv (os : OS) (key : String) : String :=
  (os.env key).getD ""

/-- The lookup `config[key]` in a Go map: the zero value when the key is absent. -/
def mapGet (config : List (String × String)) (key : String) : String :=
  match config.lookup key with
  | some v => v
  | none => ""

/-- The function `NewAuth`.  The URL is a constant that `http.NewRequest`
accepts; the error of `json.Unmarshal` is dropped and `auth`, declared as a
zero value, is returned as the decoder left it. -/
def NewAuth (lib : Lib) (Do : Transport) (username password : String) :
    Traced (Except String Auth) :=
  let url := "https://auth.psft.co/oauth/token"
  let credentials := [("grant_type", "password"), ("username", username), ("password", password)]
  let payload := lib.marshalCredentials credentials
  let req : HttpRequest :=
    { Method := "POST", URL := url, Header := [("Content-Type", "application/json")],
      Body := payload }
  match Do req with
  | .error err => ⟨[req], .ret (.error err)⟩
  | .ok resp => ⟨[req], .ret (.ok (lib.unmarshalAuth resp.Body).1)⟩

/-- The function `EnvAuth`. -/
def EnvAuth (os : OS) (lib : Lib) (Do : Transport) : Traced (Except String Auth) :=
  let username := os.Getenv "APERTURE_USERNAME"
  let password := os.Getenv "APERTURE_PASSWORD"
  if username = "" ∨ password = "" then
    ⟨[], .ret (.error "username or password is blank")⟩
  else NewAuth lib Do username password

/-- The function `SharedAuth`. -/
def SharedAuth (os : OS) (lib : Lib) (Do : Transport) : Traced (Except String Auth) :=
  let configPath := os.pathJoin (os.Getenv "HOME") ".aperturecfg"
  match os.ReadFile configPath with
  | .error err => ⟨[], .ret (.error err)⟩
  | .ok configBytes =>
    let config := (lib.unmarshalConfig configBytes).1
    NewAuth lib Do (mapGet config "username") (mapGet config "password")

/-- The function `GetAuth`. -/
def GetAuth (os : OS) (lib : Lib) (Do : Transport) : Traced (Except String Auth) :=
  match os.Stat (os.pathJoin (os.Getenv "HOME") ".aperturecfg") with
  | some .notExist => EnvAuth os lib Do
  | _ => SharedAuth os lib Do

/-! ## The command-line driver (`cli.go`) -/

/-- How the process ends: `os.Exit(code)` or an unrecovered panic. -/
inductive Halt where
  | exit (code : Int)
  | panicked (msg : String)
deriving DecidableEq, Repr

/-- The state of the process while `deploy` or `checkStatus` runs: what was
written to standard output, the requests handed to `client.Do`, whether the
channel `quit` is closed, whether `ticker.Stop()` was called, and how the
process ended (`none` while it runs). -/
structure Monitor where
  stdout : List String
  sent : List HttpRequest
  quitClosed : Bool
  tickerStopped : Bool
  halt : Option Halt
deriving DecidableEq, Repr

/-- The state in which the loop of `checkStatus` is entered. -/
def Monitor.start : Monitor :=
  { stdout := [], sent := [], quitClosed := false, tickerStopped := false, halt := none }

/-- A statement runs only while the process has not ended. -/
def Monitor.run (m : Monitor) (stmt : Monitor → Monitor) : Monitor :=
  match m.halt with
  | none => stmt m
  | some _ => m

/-- The statement `close(quit)`; closing a closed channel panics. -/
def closeQuit (m : Monitor) : Monitor :=
  m.run fun m =>
    if m.quitClosed then { m with halt := some (.panicked "close of closed channel") }
    else { m with quitClosed := true }

/-- A write of `text` to standard output. -/
def print (text : String) (m : Monitor) : Monitor :=
  m.run fun m => { m with stdout := m.stdout ++ [text] }

/-- The statement `os.Exit(code)`. -/
def osExit (code : Int) (m : Monitor) : Monitor :=
  m.run fun m => { m with halt := some (.exit code) }

/-- The statement `panic(msg)`, never recovered. -/
def goPanic (msg : String) (m : Monitor) : Monitor :=
  m.run fun m => { m with halt := some (.panicked msg) }

/-- The statement `ticker.Stop()`. -/
def stopTicker (m : Monitor) : Monitor :=
  m.run fun m => { m with tickerStopped := true }

/-- The text `fmt.Println` writes for a `[]string`. -/
def printlnStrings (xs : List String) : String :=
  "[" ++ " ".intercalate xs ++ "]\n"

/-- The body of `case <-ticker.C` in `checkStatus`: one status query and its
classification.  A nil `workflow` returned without an error is dereferenced by
the first `else if`. -/
def tickCase (lib : Lib) (Do : Transport) (project : Project) (auth : Auth) (m : Monitor) :
    Monitor :=
  let call := project.Status lib Do auth
  let m := { m with sent := m.sent ++ call.sent }
  match call.out with
  | .panicked msg => goPanic msg m
  | .ret (.error err) => m |> closeQuit |> print (err ++ "\n") |> osExit 1
  | .ret (.ok none) => goPanic nilDeref m
  | .ret (.ok (some workflow)) =>
    if workflow.WorkflowError then
      m |> closeQuit |> print "Workflow failed\n" |> print (printlnStrings workflow.EventLog)
        |> osExit 1
    else if workflow.WorkflowCompleted then
      m |> print ("Workflow completed in " ++ workflow.ElapsedWorkflowTime ++ "\n") |> closeQuit
    else
      m |> print ("Milestone: " ++ workflow.CurrentStep ++ " in progress\n")

/-- The body of `case <-quit` in `checkStatus`. -/
def quitCase (m : Monitor) : Monitor :=
  m |> stopTicker |> osExit 0

/-- What the run time contributes to one pass through the `select`: whether a
tick is already buffered in `ticker.C` when the `select` is entered (the ticker
channel holds one tick, sent while the previous status query was in flight),
which case the run time picks when both can proceed, and how `client.Do`
behaves during this pass. -/
structure Turn where
  tickBuffered : Bool
  pickTick : Bool
  Do : Transport

/-- One pass through the `select` of `checkStatus`.  While `quit` is open only
the tick case can proceed (the `select` waits for the next tick).  Once `quit`
is closed its case can always proceed, and the tick case can proceed too when
a tick is buffered; Go then picks one of the two. -/
def selectStep (lib : Lib) (project : Project) (auth : Auth) (t : Turn) (m : Monitor) : Monitor :=
  if m.quitClosed then
    if t.tickBuffered && t.pickTick then tickCase lib t.Do project auth m
    else quitCase m
  else tickCase lib t.Do project auth m

/-- The `for` loop of `checkStatus` run for the passes listed in `turns`; it
stops early when the process ends. -/
def pollLoop (lib : Lib) (project : Project) (auth : Auth) : List Turn → Monitor → Monitor
  | [], m => m
  | t :: ts, m =>
    match m.halt with
    | some _ => m
    | none => pollLoop lib project auth ts (selectStep lib project auth t m)

/-- The function `checkStatus`: resolve the credential over `authDo`, then
poll. -/
def checkStatus (os : OS) (lib : Lib) (authDo : Transport) (project : Project)
    (turns : List Turn) : Monitor :=
  let resolved := GetAuth os lib authDo
  let m := { Monitor.start with sent := resolved.sent }
  match resolved.out with
  | .panicked msg => goPanic msg m
  | .ret (.error err) => goPanic err m
  | .ret (.ok auth) => pollLoop lib project auth turns m

/-- The common body of `deploy` and `deploy_ecs`, which differ in the list of
operations only: the final process state and the project as `CreateWorkflow`
left it.  `authDo`, `createDo` and `executeDo` are the behaviour of `client.Do`
during the three calls. -/
def deployWith (operations : List String) (os : OS) (lib : Lib)
    (authDo createDo executeDo : Transport) (project : Project) : Monitor × Project :=
  let resolved := GetAuth os lib authDo
  let m := { Monitor.start with sent := resolved.sent }
  match resolved.out with
  | .panicked msg => (goPanic msg m, project)
  | .ret (.error err) => (goPanic err m, project)
  | .ret (.ok token) =>
    let created := project.CreateWorkflow lib createDo token operations
    let m := { m with sent := m.sent ++ created.sent }
    match created.out with
    | .panicked msg => (goPanic msg m, project)
    | .ret (project, .error err) => (goPanic err m, project)
    | .ret (project, .ok resp) =>
      let m := m |> print ("Workflow created: " ++ resp.Location ++ "\n")
      let executed := project.ExecuteWorkflow lib executeDo token resp.Location
      let m := { m with sent := m.sent ++ executed.sent }
      match executed.out with
      | .panicked msg => (goPanic msg m, project)
      | .ret (some err) => (goPanic err m, project)
      | .ret none => (m |> print "Successfully sent deploy request\n", project)

/-- The function `deploy`. -/
def deploy (os : OS) (lib : Lib) (authDo createDo executeDo : Transport) (project : Project) :
    Monitor × Project :=
  deployWith ["build", "deploy"] os lib authDo createDo executeDo project

/-- The function `deploy_ecs`. -/
def deploy_ecs (os : OS) (lib : Lib) (authDo createDo executeDo : Transport) (project : Project) :
    Monitor × Project :=
  deployWith ["build", "deploy_ecs"] os lib authDo createDo executeDo project

/-! ## Example worlds

Concrete instances of the parameters, used to run the client on explicit
inputs. -/

/-- The zero value of `Workflow`. -/
def zeroWorkflow : Workflow :=
  { EventLog := [], WorkflowCompleted := false, WorkflowError := false, CreatedAt := "",
    CurrentStep := "", DeploymentRepo := "", DeploymentRepoGitRef := "", ElapsedStepTime := "",
    ElapsedWorkflowTime := "", ID := "", Milestones := [], SourceCommitHash := "",
    SourceRepo := "", SourceRepoGitRef := "", UpdatedAt := "", WorkflowDuration := "",
    WorkflowStepDurations := [] }

/-- The zero value of `Auth`. -/
def zeroAuth : Auth :=
  { AccessToken := "", TokenType := "", ExpiresIn := "", Scope := "" }

/-- The error `json.Unmarshal` returns on an empty input. -/
def jsonEOF : String := "unexpected end of JSON input"

/-- A JSON string literal, for text that needs no escaping. -/
def jsonString (text : String) : String := "\"" ++ text ++ "\""

/-- A JSON array of string literals. -/
def jsonStrings (xs : List String) : String :=
  "[" ++ ",".intercalate (xs.map jsonString) ++ "]"

/-- A JSON object with the given members, in the given order. -/
def jsonObject (members : List (String × String)) : String :=
  "\x7b" ++ ",".intercalate (members.map fun kv => jsonString kv.1 ++ ":" ++ kv.2) ++ "\x7d"

/-- A status body: the step `step` is in progress. -/
def progressBody (step : String) : String :=
  jsonObject [("current_step", jsonString step)]

/-- A status body: the workflow completed after `elapsed`. -/
def completedBody (elapsed : String) : String :=
  jsonObject [("workflow_completed", "true"), ("elapsed_workflow_time", jsonString elapsed)]

/-- A status body with both flags set and two lines of event log. -/
def failedBody : String :=
  jsonObject [("workflow_error", "true"), ("workflow_completed", "true"),
    ("event_log", jsonStrings ["build failed", "exit 1"])]

/-- The workflow `json.Unmarshal` decodes from `failedBody`. -/
def failedWorkflow : Workflow :=
  { zeroWorkflow with WorkflowError := true, WorkflowCompleted := true,
                      EventLog := ["build failed", "exit 1"] }

/-- A token body. -/
def tokenBody : String := jsonObject [("access_token", jsonString "t0k3n")]

/-- The status bodies of the examples with what `json.Unmarshal` makes of them
from a nil `*Workflow`: the pointer afterwards and the error. -/
def workflowBodies : List (String × Option Workflow × Option String) :=
  [ ("", none, some jsonEOF),
    ("null", none, none),
    (progressBody "build", some { zeroWorkflow with CurrentStep := "build" }, none),
    (progressBody "deploy", some { zeroWorkflow with CurrentStep := "deploy" }, none),
    (completedBody "3m",
      some { zeroWorkflow with WorkflowCompleted := true, ElapsedWorkflowTime := "3m" }, none),
    (failedBody, some failedWorkflow, none) ]

/-- A standard library for the examples.  Every URL parses.  The encoders write
the members in the order of the struct tags, for text that needs no escaping.
On the bodies of `workflowBodies`, on the empty body and on the token body
below, the decoders return what `json.Unmarshal` returns; the examples feed
them no other input, which they treat like the empty one. -/
def exampleLib : Lib :=
  { urlParses := fun _ => true,
    marshalRequest := fun r =>
      jsonObject [("deployment_repo", jsonString r.DeploymentRepo),
        ("deployment_repo_git_ref", jsonString r.DeploymentGitRef),
        ("source_repo", jsonString r.SourceRepo),
        ("source_repo_git_ref", jsonString r.SourceRepoGitRef),
        ("milestones", jsonStrings r.Milestones)],
    marshalExecuteRequest := fun r =>
      jsonObject ((if r.BuildExchangeID = "" then []
          else [("build_messaging_exchange_id", jsonString r.BuildExchangeID)])
        ++ [("deploy_messaging_exchange_id", jsonString r.DeployExchangeID),
            ("force_build", if r.ForceBuild then "true" else "false")]),
    marshalCredentials := fun kvs => jsonObject (kvs.map fun kv => (kv.1, jsonString kv.2)),
    unmarshalWorkflow := fun body =>
      match workflowBodies.lookup body with
      | some decoded => decoded
      | none => (none, some jsonEOF),
    unmarshalAuth := fun body =>
      if body = tokenBody then
        ({ zeroAuth with AccessToken := "t0k3n" }, none)
      else (zeroAuth, some jsonEOF),
    unmarshalConfig := fun _ => ([], some jsonEOF) }

/-- A transport that answers every request with `resp`. -/
def answer (resp : HttpResponse) : Transport := fun _ => .ok resp

/-- A transport on which every request fails with `err`. -/
def failing (err : String) : Transport := fun _ => .error err

/-- A project as `NewProject` builds it from the command line. -/
def exampleProject : Project :=
  NewProject "spyglass" "staging" "master" "https://aperture.example" "" "" false

/-- The same project once workflow 42 is created. -/
def project42 : Project := { exampleProject with WorkflowID := "42" }

/-- A credential as the token endpoint returns it. -/
def exampleAuth : Auth := { zeroAuth with AccessToken := "t0k3n" }

/-- The service's answer to a creation call: 201 with the given `Location`
header, if any. -/
def created (location : Option String) : HttpResponse :=
  { Status := "201 Created", StatusCode := 201, Location := location, Body := "" }

/-- An answer with the given status line and code, no `Location` and an empty
body. -/
def bare (status : String) (code : Int) : HttpResponse :=
  { Status := status, StatusCode := code, Location := none, Body := "" }

/-- The status query of `project42`. -/
def statusQuery42 : HttpRequest :=
  buildRequest "GET" exampleAuth "https://aperture.example/workflows/42" ""

/-- A machine without a credential file whose environment holds the given
variables. -/
def exampleOS (vars : List (String × String)) : OS :=
  { env := fun key => vars.lookup key,
    Stat := fun _ => some .notExist,
    ReadFile := fun _ => .error "open: no such file or directory",
    pathJoin := fun dir file => dir ++ "/" ++ file }

/-- The service's answer to a status query: 200 with the given body. -/
def statusOK (body : String) : HttpResponse :=
  { Status := "200 OK", StatusCode := 200, Location := none, Body := body }

/-- One pass in which no tick is buffered and the service answers the status
query with `body`. -/
def onTime (body : String) : Turn :=
  { tickBuffered := false, pickTick := false, Do := answer (statusOK body) }

/-- One pass entered with a tick already buffered, which the run time picks,
and in which the service answers the status query with `body`. -/
def lateTick (body : String) : Turn :=
  { tickBuffered := true, pickTick := true, Do := answer (statusOK body) }

/-! ## Lemmas on `Split` -/

theorem splitChars_ne_nil (sep : Char) (s : List Char) : splitChars sep s ≠ [] := by
  induction s with
  | nil => simp [splitChars]
  | cons c cs ih =>
    unfold splitChars
    split
    · simp
    · split <;> simp

theorem splitChars_no_sep (sep : Char) (w : List Char) (h : sep ∉ w) :
    splitChars sep w = [w] := by
  induction w with
  | nil => rfl
  | cons c cs ih =>
    have hc : c ≠ sep := fun e => h (by simp [e])
    have hcs : sep ∉ cs := fun e => h (by simp [e])
    simp [splitChars, hc, ih hcs]

theorem splitChars_append_sep (sep : Char) (w r : List Char) (h : sep ∉ w) :
    splitChars sep (w ++ sep :: r) = w :: splitChars sep r := by
  induction w with
  | nil => simp [splitChars]
  | cons c cs ih =>
    have hc : c ≠ sep := fun e => h (by simp [e])
    have hcs : sep ∉ cs := fun e => h (by simp [e])
    simp [splitChars, hc, ih hcs]

/-- There is one piece more than there are separators. -/
theorem splitChars_length (sep : Char) (s : List Char) :
    (splitChars sep s).length = s.count sep + 1 := by
  induction s with
  | nil => rfl
  | cons c cs ih =>
    unfold splitChars
    by_cases hc : c = sep
    · subst hc
      simp [ih]
    · have hne : (c == sep) = false := by simpa using hc
      rw [if_neg hc, List.count_cons, hne]
      cases hs : splitChars sep cs with
      | nil => exact absurd hs (splitChars_ne_nil sep cs)
      | cons w ws =>
        rw [hs] at ih
        simpa using ih

/-- The index expression of `CreateWorkflow` is in range exactly when the
`Location` has at least two slashes. -/
theorem index_split_in_range (location : String) :
    (∃ id, index (Split location '/') 2 = .ret id) ↔ 2 ≤ location.data.count '/' := by
  have hlen : (Split location '/').length = location.data.count '/' + 1 := by
    simp [Split, splitChars_length]
  unfold index
  constructor
  · rintro ⟨id, h⟩
    by_contra hcon
    have hnone : (Split location '/').get? 2 = none := List.get?_eq_none.mpr (by omega)
    rw [hnone] at h
    cases h
  · intro h
    have hlt : 2 < (Split location '/').length := by omega
    refine ⟨(Split location '/').get ⟨2, hlt⟩, ?_⟩
    rw [List.get?_eq_get hlt]

/-- The third piece of `"/workflows/" ++ id ++ rest` is `id` when `id` has no
slash and `rest` is empty or starts with one. -/
theorem index_split_location (id rest : String) (hid : '/' ∉ id.data)
    (hrest : rest = "" ∨ rest.data.head? = some '/') :
    index (Split ("/workflows/" ++ id ++ rest) '/') 2 = .ret id := by
  have hw : '/' ∉ "workflows".data := by decide
  have hdata : ("/workflows/" ++ id ++ rest).data
      = [] ++ '/' :: ("workflows".data ++ '/' :: (id.data ++ rest.data)) := by
    simp [String.data_append]
  have hsplit : ∃ tail, splitChars '/' (id.data ++ rest.data) = id.data :: tail := by
    rcases hrest with h | h
    · subst h
      exact ⟨[], by simpa using splitChars_no_sep '/' id.data hid⟩
    · obtain ⟨cs⟩ := rest
      cases cs with
      | nil => simp at h
      | cons c cs =>
        simp at h
        subst h
        exact ⟨splitChars '/' cs, splitChars_append_sep '/' id.data cs hid⟩
  obtain ⟨tail, ht⟩ := hsplit
  unfold Split
  rw [hdata, splitChars_append_sep '/' [] _ (by simp),
    splitChars_append_sep '/' _ _ hw, ht]
  simp [index]

/-! ## The orchestration client: workflow creation and execution -/

/-- What `httpRequest` returns when the URL parses and the transport answers. -/
theorem httpRequest_ok (lib : Lib) (Do : Transport) (method : String) (auth : Auth)
    (uri payload : String) (resp : HttpResponse)
    (hurl : lib.urlParses uri = true)
    (hdo : Do (buildRequest method auth uri payload) = .ok resp) :
    httpRequest lib Do method auth uri payload
      = ⟨[buildRequest method auth uri payload],
          .ret (.ok { Status := resp.Status, StatusCode := resp.StatusCode,
                      Location := resp.Location.getD "", Body := resp.Body })⟩ := by
  unfold httpRequest
  rw [if_pos hurl]
  simp only [hdo]
  cases resp.Location <;> rfl

/-- What `httpRequest` returns when the URL parses and the transport fails. -/
theorem httpRequest_error (lib : Lib) (Do : Transport) (method : String) (auth : Auth)
    (uri payload err : String)
    (hurl : lib.urlParses uri = true)
    (hdo : Do (buildRequest method auth uri payload) = .error err) :
    httpRequest lib Do method auth uri payload
      = ⟨[buildRequest method auth uri payload], .ret (.error err)⟩ := by
  unfold httpRequest
  rw [if_pos hurl]
  simp only [hdo]

/-- C1. When the service answers the creation call with status 201 and a
`Location` header `"/workflows/" ++ id ++ rest`, where `id` has no slash and
`rest` is empty or starts with a slash, `CreateWorkflow` returns no error, the
project's `WorkflowID` is exactly `id` (every other field is untouched), and
the returned response carries the header value unchanged. -/
theorem createWorkflow_created (lib : Lib) (Do : Transport) (project : Project) (auth : Auth)
    (operations : List String) (resp : HttpResponse) (id rest : String)
    (hurl : lib.urlParses (project.Server ++ "/workflows") = true)
    (hdo : Do (buildRequest "POST" auth (project.Server ++ "/workflows")
        (lib.marshalRequest (project.NewRequest operations))) = .ok resp)
    (hcode : resp.StatusCode = 201)
    (hloc : resp.Location = some ("/workflows/" ++ id ++ rest))
    (hid : '/' ∉ id.data)
    (hrest : rest = "" ∨ rest.data.head? = some '/') :
    (project.CreateWorkflow lib Do auth operations).out
      = .ret ({ project with WorkflowID := id },
              .ok { Status := resp.Status, StatusCode := 201,
                    Location := "/workflows/" ++ id ++ rest, Body := resp.Body }) := by
  unfold Project.CreateWorkflow
  simp only [httpRequest_ok lib Do "POST" auth _ _ resp hurl hdo, hcode, hloc, Option.getD_some,
    ne_eq, not_true_eq_false, if_false, index_split_location id rest hid hrest]

/-- C2. When the service answers the creation call with a status code other
than 201, `CreateWorkflow` returns the error
`"Failed to create workflow: " ++ status` and no response, and the project is
exactly what it was. -/
theorem createWorkflow_not_created (lib : Lib) (Do : Transport) (project : Project) (auth : Auth)
    (operations : List String) (resp : HttpResponse)
    (hurl : lib.urlParses (project.Server ++ "/workflows") = true)
    (hdo : Do (buildRequest "POST" auth (project.Server ++ "/workflows")
        (lib.marshalRequest (project.NewRequest operations))) = .ok resp)
    (hcode : resp.StatusCode ≠ 201) :
    (project.CreateWorkflow lib Do auth operations).out
      = .ret (project, .error ("Failed to create workflow: " ++ resp.Status)) := by
  unfold Project.CreateWorkflow
  simp only [httpRequest_ok lib Do "POST" auth _ _ resp hurl hdo, ne_eq, hcode, not_false_eq_true,
    if_true]

/-- C3. When the transport answers the execution call, `ExecuteWorkflow`
returns the nil error exactly when the status code is 202 or 204, and for
every other status code it returns the error
`"Failed to execute workflow: " ++ status`. -/
theorem executeWorkflow_status (lib : Lib) (Do : Transport) (project : Project) (auth : Auth)
    (workflowURI : String) (resp : HttpResponse)
    (hurl : lib.urlParses (project.Server ++ workflowURI ++ "/execute") = true)
    (hdo : Do (buildRequest "POST" auth (project.Server ++ workflowURI ++ "/execute")
        (lib.marshalExecuteRequest (project.NewExecuteRequest project.ForceBuild))) = .ok resp) :
    ((project.ExecuteWorkflow lib Do auth workflowURI).out = .ret none
        ↔ resp.StatusCode = 202 ∨ resp.StatusCode = 204)
    ∧ (¬ (resp.StatusCode = 202 ∨ resp.StatusCode = 204) →
        (project.ExecuteWorkflow lib Do auth workflowURI).out
          = .ret (some ("Failed to execute workflow: " ++ resp.Status))) := by
  unfold Project.ExecuteWorkflow
  simp only [httpRequest_ok lib Do "POST" auth _ _ resp hurl hdo]
  by_cases h : resp.StatusCode = 204 ∨ resp.StatusCode = 202
  · have h2 : resp.StatusCode = 202 ∨ resp.StatusCode = 204 := h.symm
    simp [h, h2]
  · have h2 : ¬ (resp.StatusCode = 202 ∨ resp.StatusCode = 204) := fun e => h e.symm
    simp [h, h2]

/-- C7. The request `NewRequest` builds has the given operations as its
milestones, element for element, in the same order and number, with the
project's name, environment and commit in `DeploymentRepo`, `DeploymentGitRef`
and `SourceRepoGitRef`; and the only request `CreateWorkflow` hands to the
transport is the POST to `<server>/workflows` whose body is the encoding of
exactly that request. -/
theorem newRequest_milestones (lib : Lib) (Do : Transport) (project : Project) (auth : Auth)
    (operations : List String) :
    (project.NewRequest operations).Milestones = operations
    ∧ (project.NewRequest operations).Milestones.length = operations.length
    ∧ (∀ i, (project.NewRequest operations).Milestones.get? i = operations.get? i)
    ∧ (project.NewRequest operations).DeploymentRepo = project.Name
    ∧ (project.NewRequest operations).DeploymentGitRef = project.Environment
    ∧ (project.NewRequest operations).SourceRepoGitRef = project.Commit
    ∧ (project.CreateWorkflow lib Do auth operations).sent
        = if lib.urlParses (project.Server ++ "/workflows") then
            [buildRequest "POST" auth (project.Server ++ "/workflows")
              (lib.marshalRequest
                { DeploymentRepo := project.Name, DeploymentGitRef := project.Environment,
                  SourceRepo := "", SourceRepoGitRef := project.Commit,
                  Milestones := operations })]
          else [] := by
  refine ⟨rfl, rfl, fun _ => rfl, rfl, rfl, rfl, ?_⟩
  unfold Project.CreateWorkflow httpRequest
  by_cases hurl : lib.urlParses (project.Server ++ "/workflows") = true
  · simp only [hurl, if_true]
    cases hdo : Do (buildRequest "POST" auth (project.Server ++ "/workflows")
        (lib.marshalRequest (project.NewRequest operations))) with
    | error err => rfl
    | ok resp =>
      simp only []
      split
      · rfl
      · cases index (Split (match resp.Location with | some value => value | none => "") '/') 2
          <;> rfl
  · simp [hurl]

/-! ## The credential resolver -/

/-- A status query that returns has handed exactly one request to the
transport, the GET of `<server>/workflows/<WorkflowID>`. -/
theorem status_sent (lib : Lib) (Do : Transport) (project : Project) (auth : Auth)
    (result : Except String (Option Workflow))
    (h : (project.Status lib Do auth).out = .ret result) :
    (project.Status lib Do auth).sent
      = [buildRequest "GET" auth (project.Server ++ "/workflows/" ++ project.WorkflowID) ""] := by
  unfold Project.Status httpRequest at h ⊢
  by_cases hurl : lib.urlParses (project.Server ++ "/workflows/" ++ project.WorkflowID) = true
  · simp only [hurl, if_true] at h ⊢
    cases hdo : Do (buildRequest "GET" auth
        (project.Server ++ "/workflows/" ++ project.WorkflowID) "") with
    | error err => rfl
    | ok resp =>
      simp only []
      split <;> rfl
  · simp [hurl] at h

/-- The tick case on a workflow with `WorkflowError` set, while polling. -/
theorem tickCase_failed (lib : Lib) (Do : Transport) (project : Project) (auth : Auth)
    (m : Monitor) (workflow : Workflow)
    (hrun : m.halt = none) (hopen : m.quitClosed = false)
    (hstatus : (project.Status lib Do auth).out = .ret (.ok (some workflow)))
    (he : workflow.WorkflowError = true) :
    tickCase lib Do project auth m
      = { stdout := m.stdout ++ ["Workflow failed\n", printlnStrings workflow.EventLog],
          sent := m.sent ++ (project.Status lib Do auth).sent,
          quitClosed := true, tickerStopped := m.tickerStopped, halt := some (.exit 1) } := by
  obtain ⟨out, sent, closed, stopped, halt⟩ := m
  simp only at hrun hopen
  subst hrun hopen
  simp [tickCase, hstatus, he, closeQuit, print, osExit, Monitor.run]

/-- The tick case on a workflow that is completed and not failed, while
polling. -/
theorem tickCase_completed (lib : Lib) (Do : Transport) (project : Project) (auth : Auth)
    (m : Monitor) (workflow : Workflow)
    (hrun : m.halt = none) (hopen : m.quitClosed = false)
    (hstatus : (project.Status lib Do auth).out = .ret (.ok (some workflow)))
    (he : workflow.WorkflowError = false) (hc : workflow.WorkflowCompleted = true) :
    tickCase lib Do project auth m
      = { stdout := m.stdout
            ++ ["Workflow completed in " ++ workflow.ElapsedWorkflowTime ++ "\n"],
          sent := m.sent ++ (project.Status lib Do auth).sent,
          quitClosed := true, tickerStopped := m.tickerStopped, halt := none } := by
  obtain ⟨out, sent, closed, stopped, halt⟩ := m
  simp only at hrun hopen
  subst hrun hopen
  simp [tickCase, hstatus, he, hc, closeQuit, print, Monitor.run]

/-- The tick case on a workflow that is neither failed nor completed, while
polling. -/
theorem tickCase_progress (lib : Lib) (Do : Transport) (project : Project) (auth : Auth)
    (m : Monitor) (workflow : Workflow)
    (hrun : m.halt = none) (hopen : m.quitClosed = false)
    (hstatus : (project.Status lib Do auth).out = .ret (.ok (some workflow)))
    (he : workflow.WorkflowError = false) (hc : workflow.WorkflowCompleted = false) :
    tickCase lib Do project auth m
      = { stdout := m.stdout ++ ["Milestone: " ++ workflow.CurrentStep ++ " in progress\n"],
          sent := m.sent ++ (project.Status lib Do auth).sent,
          quitClosed := false, tickerStopped := m.tickerStopped, halt := none } := by
  obtain ⟨out, sent, closed, stopped, halt⟩ := m
  simp only at hrun hopen
  subst hrun hopen
  simp [tickCase, hstatus, he, hc, print, Monitor.run]

/-- C4. A tick taken while the monitor polls (the process runs, `quit` is open)
whose status query returns a workflow is classified as follows.  If
`WorkflowError` is set, whatever `WorkflowCompleted` is, the monitor writes
`Workflow failed` and the event log and exits with code 1.  If only
`WorkflowCompleted` is set it writes the elapsed time and closes `quit`, so
that the quit case exits with code 0.  If neither is set it writes the current
step and keeps polling. -/
theorem tickCase_classifies (lib : Lib) (Do : Transport) (project : Project) (auth : Auth)
    (m : Monitor) (workflow : Workflow)
    (hrun : m.halt = none) (hopen : m.quitClosed = false)
    (hstatus : (project.Status lib Do auth).out = .ret (.ok (some workflow))) :
    (workflow.WorkflowError = true →
      tickCase lib Do project auth m
        = { stdout := m.stdout ++ ["Workflow failed\n", printlnStrings workflow.EventLog],
            sent := m.sent ++ (project.Status lib Do auth).sent,
            quitClosed := true, tickerStopped := m.tickerStopped, halt := some (.exit 1) })
    ∧ (workflow.WorkflowError = false → workflow.WorkflowCompleted = true →
      tickCase lib Do project auth m
        = { stdout := m.stdout
              ++ ["Workflow completed in " ++ workflow.ElapsedWorkflowTime ++ "\n"],
            sent := m.sent ++ (project.Status lib Do auth).sent,
            quitClosed := true, tickerStopped := m.tickerStopped, halt := none }
      ∧ quitCase (tickCase lib Do project auth m)
        = { stdout := m.stdout
              ++ ["Workflow completed in " ++ workflow.ElapsedWorkflowTime ++ "\n"],
            sent := m.sent ++ (project.Status lib Do auth).sent,
            quitClosed := true, tickerStopped := true, halt := some (.exit 0) })
    ∧ (workflow.WorkflowError = false → workflow.WorkflowCompleted = false →
      tickCase lib Do project auth m
        = { stdout := m.stdout ++ ["Milestone: " ++ workflow.CurrentStep ++ " in progress\n"],
            sent := m.sent ++ (project.Status lib Do auth).sent,
            quitClosed := false, tickerStopped := m.tickerStopped, halt := none }) := by
  refine ⟨tickCase_failed lib Do project auth m workflow hrun hopen hstatus, fun he hc => ?_,
    tickCase_progress lib Do project auth m workflow hrun hopen hstatus⟩
  have h := tickCase_completed lib Do project auth m workflow hrun hopen hstatus he hc
  exact ⟨h, by rw [h]; rfl⟩

/-- C8, as the code has it.  A tick taken while the monitor polls: when the
status query fails in the transport, `Status` returns that error, and when the
service answers with a status code other than 200, `Status` returns the error
`"Failed to retrieve status: " ++ status`; in both cases the monitor writes the
error and exits with code 1.  When the service answers 200, `Status` returns
no error and the workflow pointer as the decoder left it, whatever the body. -/
theorem status_failure (lib : Lib) (Do : Transport) (project : Project) (auth : Auth)
    (m : Monitor) (hrun : m.halt = none) (hopen : m.quitClosed = false)
    (hurl : lib.urlParses (project.Server ++ "/workflows/" ++ project.WorkflowID) = true) :
    (∀ err, Do (buildRequest "GET" auth
          (project.Server ++ "/workflows/" ++ project.WorkflowID) "") = .error err →
        (project.Status lib Do auth).out = .ret (.error err)
        ∧ tickCase lib Do project auth m
          = { stdout := m.stdout ++ [err ++ "\n"],
              sent := m.sent ++ [buildRequest "GET" auth
                (project.Server ++ "/workflows/" ++ project.WorkflowID) ""],
              quitClosed := true, tickerStopped := m.tickerStopped, halt := some (.exit 1) })
    ∧ (∀ resp, Do (buildRequest "GET" auth
          (project.Server ++ "/workflows/" ++ project.WorkflowID) "") = .ok resp →
        (resp.StatusCode ≠ 200 →
          (project.Status lib Do auth).out
            = .ret (.error ("Failed to retrieve status: " ++ resp.Status))
          ∧ tickCase lib Do project auth m
            = { stdout := m.stdout ++ ["Failed to retrieve status: " ++ resp.Status ++ "\n"],
                sent := m.sent ++ [buildRequest "GET" auth
                  (project.Server ++ "/workflows/" ++ project.WorkflowID) ""],
                quitClosed := true, tickerStopped := m.tickerStopped,
                halt := some (.exit 1) })
        ∧ (resp.StatusCode = 200 →
          (project.Status lib Do auth).out = .ret (.ok (lib.unmarshalWorkflow resp.Body).1))) := by
  obtain ⟨out, sent, closed, stopped, halt⟩ := m
  simp only at hrun hopen
  subst hrun hopen
  refine ⟨fun err hdo => ?_, fun resp hdo => ⟨fun hcode => ?_, fun hcode => ?_⟩⟩
  · have hs : project.Status lib Do auth
        = ⟨[buildRequest "GET" auth (project.Server ++ "/workflows/" ++ project.WorkflowID) ""],
            .ret (.error err)⟩ := by
      unfold Project.Status
      simp only [httpRequest_error lib Do "GET" auth _ _ err hurl hdo]
    simp [tickCase, hs, closeQuit, print, osExit, Monitor.run]
  · have hs : project.Status lib Do auth
        = ⟨[buildRequest "GET" auth (project.Server ++ "/workflows/" ++ project.WorkflowID) ""],
            .ret (.error ("Failed to retrieve status: " ++ resp.Status))⟩ := by
      unfold Project.Status
      simp only [httpRequest_ok lib Do "GET" auth _ _ resp hurl hdo, ne_eq, hcode,
        not_false_eq_true, if_true]
    simp [tickCase, hs, closeQuit, print, osExit, Monitor.run]
  · unfold Project.Status
    simp only [httpRequest_ok lib Do "GET" auth _ _ resp hurl hdo, ne_eq, hcode,
      not_true_eq_false, if_false]

/-- The loop does nothing more once the process has ended. -/
theorem pollLoop_halted (lib : Lib) (project : Project) (auth : Auth) (turns : List Turn)
    (m : Monitor) (h : Halt) (hm : m.halt = some h) : pollLoop lib project auth turns m = m := by
  cases turns with
  | nil => rfl
  | cons t ts => simp [pollLoop, hm]

/-- While the process runs, the loop makes one pass through the `select`. -/
theorem pollLoop_cons (lib : Lib) (project : Project) (auth : Auth) (t : Turn) (ts : List Turn)
    (m : Monitor) (hm : m.halt = none) :
    pollLoop lib project auth (t :: ts) m
      = pollLoop lib project auth ts (selectStep lib project auth t m) := by
  simp [pollLoop, hm]

/-- A run of passes whose status queries all report a workflow that is neither
failed nor completed: the monitor writes one progress line per pass, sends one
status query per pass, and keeps polling. -/
theorem pollLoop_in_progress (lib : Lib) (project : Project) (auth : Auth)
    (script : List (Turn × Workflow)) (rest : List Turn) (m : Monitor)
    (hrun : m.halt = none) (hopen : m.quitClosed = false)
    (hscript : ∀ p ∈ script,
      (project.Status lib p.1.Do auth).out = .ret (.ok (some p.2))
      ∧ p.2.WorkflowError = false ∧ p.2.WorkflowCompleted = false) :
    pollLoop lib project auth (script.map Prod.fst ++ rest) m
      = pollLoop lib project auth rest
          { stdout := m.stdout
              ++ script.map (fun p => "Milestone: " ++ p.2.CurrentStep ++ " in progress\n"),
            sent := m.sent ++ List.replicate script.length
              (buildRequest "GET" auth (project.Server ++ "/workflows/" ++ project.WorkflowID) ""),
            quitClosed := false, tickerStopped := m.tickerStopped, halt := none } := by
  induction script generalizing m with
  | nil =>
    obtain ⟨out, sent, closed, stopped, halt⟩ := m
    simp only at hrun hopen
    subst hrun hopen
    simp
  | cons p ps ih =>
    obtain ⟨hp, he, hc⟩ := hscript p (List.mem_cons_self _ _)
    have hps : ∀ q ∈ ps, (project.Status lib q.1.Do auth).out = .ret (.ok (some q.2))
        ∧ q.2.WorkflowError = false ∧ q.2.WorkflowCompleted = false :=
      fun q hq => hscript q (List.mem_cons_of_mem _ hq)
    have hstep := tickCase_progress lib p.1.Do project auth m p.2 hrun hopen hp he hc
    rw [status_sent lib p.1.Do project auth _ hp] at hstep
    have hsel : selectStep lib project auth p.1 m = tickCase lib p.1.Do project auth m := by
      simp [selectStep, hopen]
    rw [List.map_cons, List.cons_append, pollLoop_cons lib project auth _ _ m hrun, hsel, hstep,
      ih _ rfl rfl hps]
    simp [List.replicate_succ]

/-- The scripted run when no tick is buffered at its end.  After `k` passes
that report progress and one that reports completion without error, a pass
entered with no buffered tick (or in which the run time picks `quit`) ends the
process with exit code 0: `k` progress lines, the elapsed time, and `k + 1`
status queries. -/
theorem pollLoop_script (lib : Lib) (project : Project) (auth : Auth)
    (script : List (Turn × Workflow)) (last : Turn) (final : Workflow) (quitTurn : Turn)
    (more : List Turn)
    (hscript : ∀ p ∈ script,
      (project.Status lib p.1.Do auth).out = .ret (.ok (some p.2))
      ∧ p.2.WorkflowError = false ∧ p.2.WorkflowCompleted = false)
    (hlast : (project.Status lib last.Do auth).out = .ret (.ok (some final)))
    (he : final.WorkflowError = false) (hc : final.WorkflowCompleted = true)
    (hquiet : (quitTurn.tickBuffered && quitTurn.pickTick) = false) :
    pollLoop lib project auth (script.map Prod.fst ++ last :: quitTurn :: more) Monitor.start
      = { stdout := script.map (fun p => "Milestone: " ++ p.2.CurrentStep ++ " in progress\n")
            ++ ["Workflow completed in " ++ final.ElapsedWorkflowTime ++ "\n"],
          sent := List.replicate (script.length + 1)
            (buildRequest "GET" auth (project.Server ++ "/workflows/" ++ project.WorkflowID) ""),
          quitClosed := true, tickerStopped := true, halt := some (.exit 0) } := by
  rw [pollLoop_in_progress lib project auth script _ Monitor.start rfl rfl hscript]
  have hstep := tickCase_completed lib last.Do project auth
    { stdout := Monitor.start.stdout
        ++ script.map (fun p => "Milestone: " ++ p.2.CurrentStep ++ " in progress\n"),
      sent := Monitor.start.sent ++ List.replicate script.length
        (buildRequest "GET" auth (project.Server ++ "/workflows/" ++ project.WorkflowID) ""),
      quitClosed := false, tickerStopped := Monitor.start.tickerStopped, halt := none }
    final rfl rfl hlast he hc
  rw [status_sent lib last.Do project auth _ hlast] at hstep
  have hsel : ∀ m : Monitor, m.quitClosed = false →
      selectStep lib project auth last m = tickCase lib last.Do project auth m := by
    intro m hm
    simp [selectStep, hm]
  have hquit : ∀ m : Monitor, m.quitClosed = true →
      selectStep lib project auth quitTurn m = quitCase m := by
    intro m hm
    simp [selectStep, hm, hquiet]
  rw [pollLoop_cons lib project auth _ _ _ rfl, hsel _ rfl, hstep,
    pollLoop_cons lib project auth _ _ _ rfl, hquit _ rfl]
  have hexit : (quitCase
      { stdout := Monitor.start.stdout
          ++ script.map (fun p => "Milestone: " ++ p.2.CurrentStep ++ " in progress\n")
          ++ ["Workflow completed in " ++ final.ElapsedWorkflowTime ++ "\n"],
        sent := Monitor.start.sent ++ List.replicate script.length
            (buildRequest "GET" auth (project.Server ++ "/workflows/" ++ project.WorkflowID) "")
          ++ [buildRequest "GET" auth (project.Server ++ "/workflows/" ++ project.WorkflowID) ""],
        quitClosed := true, tickerStopped := Monitor.start.tickerStopped,
        halt := none }).halt = some (.exit 0) := rfl
  rw [pollLoop_halted lib project auth _ _ (.exit 0) hexit]
  simp [quitCase, stopTicker, osExit, Monitor.run, Monitor.start, List.replicate_succ']

/-! ## The theorems at explicit inputs -/

/-- C1 at the input of the specification: `Location: /workflows/42/` sets the
workflow identifier to `42`. -/
theorem createWorkflow_created_witness :
    '/' ∉ "42".data
    ∧ (exampleProject.CreateWorkflow exampleLib (answer (created (some "/workflows/42/")))
        exampleAuth ["build", "deploy"]).out
      = .ret ({ exampleProject with WorkflowID := "42" },
          .ok { Status := "201 Created", StatusCode := 201, Location := "/workflows/42/",
                Body := "" }) :=
  ⟨by decide,
    createWorkflow_created exampleLib (answer (created (some "/workflows/42/"))) exampleProject
      exampleAuth ["build", "deploy"] (created (some "/workflows/42/")) "42" "/"
      rfl rfl rfl rfl (by decide) (Or.inr rfl)⟩

/-- C7 at the operations of `deploy`: the milestones stay `build`, `deploy`, in
this order, in the request and in its encoding. -/
theorem newRequest_milestones_witness :
    (exampleProject.NewRequest ["build", "deploy"]).Milestones = ["build", "deploy"]
    ∧ (exampleProject.NewRequest ["build", "deploy"]).Milestones ≠ ["deploy", "build"]
    ∧ (exampleProject.CreateWorkflow exampleLib (answer (created (some "/workflows/42/")))
        exampleAuth ["build", "deploy"]).sent
      = [buildRequest "POST" exampleAuth "https://aperture.example/workflows"
          ("\x7b\"deployment_repo\":\"spyglass\",\"deployment_repo_git_ref\":\"staging\","
            ++ "\"source_repo\":\"\",\"source_repo_git_ref\":\"master\","
            ++ "\"milestones\":[\"build\",\"deploy\"]\x7d")] :=
  ⟨(newRequest_milestones exampleLib (answer (created (some "/workflows/42/"))) exampleProject
      exampleAuth ["build", "deploy"]).1,
   by decide,
   (newRequest_milestones exampleLib (answer (created (some "/workflows/42/"))) exampleProject
      exampleAuth ["build", "deploy"]).2.2.2.2.2.2⟩

/-- C2 at a 500 answer. -/
theorem createWorkflow_not_created_witness :
    (bare "500 Internal Server Error" 500).StatusCode ≠ 201
    ∧ (exampleProject.CreateWorkflow exampleLib (answer (bare "500 Internal Server Error" 500))
        exampleAuth ["build", "deploy"]).out
      = .ret (exampleProject, .error "Failed to create workflow: 500 Internal Server Error") :=
  ⟨by decide,
    createWorkflow_not_created exampleLib (answer (bare "500 Internal Server Error" 500))
      exampleProject exampleAuth ["build", "deploy"] (bare "500 Internal Server Error" 500)
      rfl rfl (by decide)⟩

/-- C3 at a 200 answer, which is an error, and at a 202 answer, which is not. -/
theorem executeWorkflow_status_witness :
    (project42.ExecuteWorkflow exampleLib (answer (bare "200 OK" 200)) exampleAuth
        "/workflows/42").out
      = .ret (some "Failed to execute workflow: 200 OK")
    ∧ (project42.ExecuteWorkflow exampleLib (answer (bare "202 Accepted" 202)) exampleAuth
        "/workflows/42").out
      = .ret none :=
  ⟨(executeWorkflow_status exampleLib (answer (bare "200 OK" 200)) project42 exampleAuth
      "/workflows/42" (bare "200 OK" 200) rfl rfl).2 (by decide),
   (executeWorkflow_status exampleLib (answer (bare "202 Accepted" 202)) project42 exampleAuth
      "/workflows/42" (bare "202 Accepted" 202) rfl rfl).1.2 (by decide)⟩

/-- C4 at a status with both flags set and a non-empty event log: the monitor
fails and writes the log. -/
theorem tickCase_classifies_witness :
    failedWorkflow.WorkflowCompleted = true
    ∧ tickCase exampleLib (answer (statusOK failedBody)) project42 exampleAuth Monitor.start
      = { stdout := ["Workflow failed\n", "[build failed exit 1]\n"],
          sent := [statusQuery42],
          quitClosed := true, tickerStopped := false, halt := some (.exit 1) } :=
  ⟨rfl,
    (tickCase_classifies exampleLib (answer (statusOK failedBody)) project42 exampleAuth
      Monitor.start failedWorkflow rfl rfl rfl).1 rfl⟩

/-- C8: a 200 answer with an empty body.  The decoder reports an error, yet
`Status` returns no error and a nil workflow, and the monitor, instead of
writing an error and exiting with code 1, dereferences the nil pointer. -/
theorem status_undecodable_body :
    (exampleLib.unmarshalWorkflow (statusOK "").Body).2 = some jsonEOF
    ∧ (project42.Status exampleLib (answer (statusOK "")) exampleAuth).out = .ret (.ok none)
    ∧ (¬ ∃ err, (project42.Status exampleLib (answer (statusOK "")) exampleAuth).out
          = .ret (.error err))
    ∧ tickCase exampleLib (answer (statusOK "")) project42 exampleAuth Monitor.start
      = { stdout := [], sent := [statusQuery42], quitClosed := false, tickerStopped := false,
          halt := some (.panicked nilDeref) } := by
  refine ⟨rfl, rfl, ?_, rfl⟩
  rintro ⟨err, h⟩
  have h2 : (project42.Status exampleLib (answer (statusOK "")) exampleAuth).out
      = .ret (.ok none) := rfl
  rw [h2] at h
  cases h

/-- C8, as the code has it, at a refused connection and at a 503 answer. -/
theorem status_failure_witness :
    tickCase exampleLib (failing "dial tcp: connection refused") project42 exampleAuth
        Monitor.start
      = { stdout := ["dial tcp: connection refused\n"], sent := [statusQuery42],
          quitClosed := true, tickerStopped := false, halt := some (.exit 1) }
    ∧ tickCase exampleLib (answer (bare "503 Service Unavailable" 503)) project42 exampleAuth
        Monitor.start
      = { stdout := ["Failed to retrieve status: 503 Service Unavailable\n"],
          sent := [statusQuery42],
          quitClosed := true, tickerStopped := false, halt := some (.exit 1) } :=
  ⟨((status_failure exampleLib (failing "dial tcp: connection refused") project42 exampleAuth
      Monitor.start rfl rfl rfl).1 "dial tcp: connection refused" rfl).2,
   (((status_failure exampleLib (answer (bare "503 Service Unavailable" 503)) project42
      exampleAuth Monitor.start rfl rfl rfl).2 (bare "503 Service Unavailable" 503) rfl).1
      (by decide)).2⟩

/-- C10: workflow creation does not check the `Location` header.  A 201 answer
without the header, or with `/workflows`, panics in the index expression; a 201
answer with `Location: /workflows/` is reported as a success that leaves the
workflow identifier empty, and the status query that follows is sent with the
empty identifier. -/
theorem createWorkflow_location_unchecked :
    (exampleProject.CreateWorkflow exampleLib (answer (created none)) exampleAuth
        ["build", "deploy"]).out
      = .panicked "runtime error: index out of range [2] with length 1"
    ∧ (exampleProject.CreateWorkflow exampleLib (answer (created (some "/workflows")))
        exampleAuth ["build", "deploy"]).out
      = .panicked "runtime error: index out of range [2] with length 2"
    ∧ (exampleProject.CreateWorkflow exampleLib (answer (created (some "/workflows/")))
        exampleAuth ["build", "deploy"]).out
      = .ret ({ exampleProject with WorkflowID := "" },
          .ok { Status := "201 Created", StatusCode := 201, Location := "/workflows/",
                Body := "" })
    ∧ (deploy (exampleOS [("APERTURE_USERNAME", "user"), ("APERTURE_PASSWORD", "secret")])
        exampleLib (answer (statusOK tokenBody)) (answer (created (some "/workflows/")))
        (answer (bare "202 Accepted" 202)) exampleProject)
      = ({ stdout := ["Workflow created: /workflows/\n", "Successfully sent deploy request\n"],
           sent := [{ Method := "POST", URL := "https://auth.psft.co/oauth/token",
                      Header := [("Content-Type", "application/json")],
                      Body := exampleLib.marshalCredentials [("grant_type", "password"),
                        ("username", "user"), ("password", "secret")] },
                    buildRequest "POST" exampleAuth "https://aperture.example/workflows"
                      (exampleLib.marshalRequest (exampleProject.NewRequest ["build", "deploy"])),
                    buildRequest "POST" exampleAuth "https://aperture.example/workflows//execute"
                      (exampleLib.marshalExecuteRequest
                        (exampleProject.NewExecuteRequest false))],
           quitClosed := false, tickerStopped := false, halt := none },
         { exampleProject with WorkflowID := "" })
    ∧ (pollLoop exampleLib { exampleProject with WorkflowID := "" } exampleAuth
        [onTime (progressBody "build")] Monitor.start).sent
      = [buildRequest "GET" exampleAuth "https://aperture.example/workflows/" ""] := by
  exact ⟨rfl, rfl, rfl, rfl, rfl⟩

/-- C5: the script of the specification with a tick buffered while the third
status query was in flight, when the run time picks the tick case.  The monitor
sends a fourth status query after the one that reported completion, writes the
completion line twice and dies closing `quit` a second time, instead of
exiting with code 0 after three queries. -/
theorem pollLoop_late_tick :
    pollLoop exampleLib project42 exampleAuth
      [onTime (progressBody "build"), onTime (progressBody "deploy"),
       onTime (completedBody "3m"), lateTick (completedBody "3m")] Monitor.start
    = { stdout := ["Milestone: build in progress\n", "Milestone: deploy in progress\n",
                   "Workflow completed in 3m\n", "Workflow completed in 3m\n"],
        sent := [statusQuery42, statusQuery42, statusQuery42, statusQuery42],
        quitClosed := true, tickerStopped := false,
        halt := some (.panicked "close of closed channel") } := by
  decide

/-- The script of the specification when no tick is buffered at its end: two
progress lines, the elapsed time, three status queries, exit code 0. -/
theorem pollLoop_script_witness :
    pollLoop exampleLib project42 exampleAuth
      [onTime (progressBody "build"), onTime (progressBody "deploy"),
       onTime (completedBody "3m"), onTime (completedBody "3m")] Monitor.start
    = { stdout := ["Milestone: build in progress\n", "Milestone: deploy in progress\n",
                   "Workflow completed in 3m\n"],
        sent := [statusQuery42, statusQuery42, statusQuery42],
        quitClosed := true, tickerStopped := true, halt := some (.exit 0) } :=
  pollLoop_script exampleLib project42 exampleAuth
    [(onTime (progressBody "build"), { zeroWorkflow with CurrentStep := "build" }),
     (onTime (progressBody "deploy"), { zeroWorkflow with CurrentStep := "deploy" })]
    (onTime (completedBody "3m"))
    { zeroWorkflow with WorkflowCompleted := true, ElapsedWorkflowTime := "3m" }
    (onTime (completedBody "3m")) []
    (by
      intro p hp
      simp only [List.mem_cons, List.mem_singleton, List.not_mem_nil, or_false] at hp
      rcases hp with rfl | rfl <;> exact ⟨rfl, rfl, rfl⟩)
    rfl rfl rfl rfl

end Spyglass
